import Mathlib

/-
  Verification development for the video-upscaler repository.

  Shallow embedding of the core pipeline logic:
    - src/core/rife_engine.py      (RIFEEngine)
    - src/core/interpolator.py     (InterpolatorEngine)
    - src/core/upscaler.py         (UpscalerEngine)
    - src/core/video_engine.py     (VideoEngine, ProcessingOptions)
    - src/core/video_worker.py     (VideoWorker)
    - src/config/presets.py        (PresetLevel, PresetConfig, check_vram_compatibility)

  Python floats are modelled by exact rationals; Python int() truncation
  toward zero is modelled by pytrunc; images are an abstract type parameter;
  the filesystem side effects (reading and writing frame files) are modelled
  by explicit lists of frames.
-/

/-- Python int() applied to a rational: truncation toward zero. -/
def pytrunc (q : ℚ) : ℤ :=
  if 0 ≤ q then ⌊q⌋ else ⌈q⌉

/-- Python dict.get (key, default) over an association list. -/
def dictGet (m : List (ℤ × ℚ)) (k : ℤ) (d : ℚ) : ℚ :=
  match m.find? (fun p => p.1 == k) with
  | some p => p.2
  | none => d

/-- RIFEEngine.TARGET_FPS_MAP (src/core/rife_engine.py lines 27-34). -/
def TARGET_FPS_MAP : List (ℤ × ℚ) :=
  [(24, 60), (25, 60), (30, 60), (48, 60), (50, 60), (60, 60)]

/-- InterpolatorEngine.TARGET_FPS (src/core/interpolator.py lines 30-34). -/
def TARGET_FPS : List (ℤ × ℚ) :=
  [(24, 60), (25, 60), (30, 60)]

/-- RIFEEngine.calculate_interpolation_frames (src/core/rife_engine.py lines
141-172): resolves the target rate when none is given via
TARGET_FPS_MAP.get(int(source_fps), 60), returns (0, source_fps) when the
ratio target/source is at most 1, and otherwise (int(ratio - 1), target). -/
def calculate_interpolation_frames (source_fps : ℚ) (target_fps : Option ℚ) : ℤ × ℚ :=
  let t : ℚ :=
    match target_fps with
    | none => dictGet TARGET_FPS_MAP (pytrunc source_fps) 60
    | some t => t
  let r : ℚ := t / source_fps
  if r ≤ 1 then (0, source_fps) else (pytrunc (r - 1), t)

/-- InterpolatorEngine.interpolate_frames target-rate resolution
(src/core/interpolator.py line 108): TARGET_FPS.get(int(source_fps), 60). -/
def interpolator_resolve_target (source_fps : ℚ) : ℚ :=
  dictGet TARGET_FPS (pytrunc source_fps) 60

/-- The frame-writing loop of RIFEEngine.interpolate_video
(src/core/rife_engine.py lines 287-319): each input frame is copied to the
output; between consecutive frames a and b, k interpolated frames are
produced at timesteps (j+1)/(k+1) for j = 0..k-1.  The interpolate
capability is total (interpolate_frame_pair always yields an image, falling
back to a linear blend internally). -/
def rifeMergedFrames {α : Type} (interp : α → α → ℚ → α) (k : ℕ) : List α → List α
  | [] => []
  | [a] => [a]
  | a :: b :: rest =>
      (a :: (List.range k).map (fun j : ℕ => interp a b (((j : ℚ) + 1) / ((k : ℚ) + 1))))
        ++ rifeMergedFrames interp k (b :: rest)

/-- RIFEEngine.interpolate_video (src/core/rife_engine.py lines 245-325):
returns (number of output frames written, actual target fps).  An empty
input directory yields (0, source_fps) (lines 269-272). -/
def interpolate_video {α : Type} (interp : α → α → ℚ → α) (source_fps : ℚ)
    (target_fps : Option ℚ) (frames : List α) : ℕ × ℚ :=
  if frames.isEmpty then (0, source_fps)
  else
    let kt := calculate_interpolation_frames source_fps target_fps
    ((rifeMergedFrames interp kt.1.toNat frames).length, kt.2)

/-- The frame-writing loop of InterpolatorEngine._simple_interpolate
(src/core/interpolator.py lines 155-163): every input frame (including the
last) is copied once and then duplicated d more times. -/
def dupFrames {α : Type} (d : ℕ) : List α → List α
  | [] => []
  | f :: rest => f :: (List.replicate d f ++ dupFrames d rest)

/-- InterpolatorEngine._simple_interpolate (src/core/interpolator.py lines
127-169): on a non-empty input, computes n_duplicates = int(ratio) - 1 and
emits each frame 1 + n_duplicates times; returns (output count, target fps).
An empty input yields (0, source_fps) (lines 144-146). -/
def simple_interpolate {α : Type} (source_fps target_fps : ℚ) (frames : List α) : ℕ × ℚ :=
  if frames.isEmpty then (0, source_fps)
  else
    let n_duplicates : ℤ := pytrunc (target_fps / source_fps) - 1
    ((dupFrames n_duplicates.toNat frames).length, target_fps)

/-- PresetLevel (src/config/presets.py lines 11-15). -/
inductive PresetLevel : Type
  | fast
  | standard
  | high
deriving DecidableEq

/-- PresetConfig (src/config/presets.py lines 18-44). -/
structure PresetConfig : Type where
  name : String
  description : String
  scale_factor : ℕ
  target_fps : Option ℚ
  target_resolution : Option String
  vram_required_gb : ℚ
  tile_size : ℕ
  use_interpolation : Bool
  encoder_preset : String
  encoder_quality : ℕ

/-- PRESETS (src/config/presets.py lines 48-85), as a total map over the
three levels. -/
def PRESETS : PresetLevel → PresetConfig
  | .fast =>
      { name := "流畅档", description := "快速处理，适合720p/1080p视频，保留原帧率"
        scale_factor := 2, target_fps := none, target_resolution := some "1920x1080"
        vram_required_gb := 2, tile_size := 0, use_interpolation := false
        encoder_preset := "fast", encoder_quality := 23 }
  | .standard =>
      { name := "标准档", description := "均衡画质与速度，输出1080p@60fps"
        scale_factor := 2, target_fps := some 60, target_resolution := some "1920x1080"
        vram_required_gb := 4, tile_size := 400, use_interpolation := true
        encoder_preset := "medium", encoder_quality := 20 }
  | .high =>
      { name := "高清档", description := "最高画质，输出4K@60fps"
        scale_factor := 4, target_fps := some 60, target_resolution := some "3840x2160"
        vram_required_gb := 6, tile_size := 200, use_interpolation := true
        encoder_preset := "slow", encoder_quality := 18 }

/-- get_preset_config (src/config/presets.py lines 88-98). -/
def get_preset_config (preset_level : PresetLevel) : PresetConfig :=
  PRESETS preset_level

/-- The three message branches of check_vram_compatibility. -/
inductive VramVerdict : Type
  | sufficient
  | tight
  | insufficient
deriving DecidableEq

/-- check_vram_compatibility (src/config/presets.py lines 177-198): compares
the available VRAM against the preset requirement, with the warning branch
at available >= required * 0.8. -/
def check_vram_compatibility (available_vram_gb : ℚ) (preset_level : PresetLevel) :
    Bool × VramVerdict :=
  let config := get_preset_config preset_level
  if config.vram_required_gb ≤ available_vram_gb then (true, .sufficient)
  else if config.vram_required_gb * (0.8 : ℚ) ≤ available_vram_gb then (true, .tight)
  else (false, .insufficient)

/-- ProcessingOptions (src/core/video_engine.py lines 16-46): parameters
copied from the preset plus the runtime source properties (lines 43-46,
filled in by extract_frames). -/
structure ProcessingOptions : Type where
  scale_factor : ℕ
  target_fps : Option ℚ
  target_resolution : Option String
  tile_size : ℕ
  use_interpolation : Bool
  encoder_preset : String
  encoder_quality : ℕ
  source_width : ℕ
  source_height : ℕ
  source_fps : ℚ

/-- ProcessingOptions.__init__ from a preset config (src/core/video_engine.py
lines 22-46); the source properties start at 0. -/
def ProcessingOptions.ofPreset (p : PresetConfig) : ProcessingOptions :=
  { scale_factor := p.scale_factor, target_fps := p.target_fps
    target_resolution := p.target_resolution, tile_size := p.tile_size
    use_interpolation := p.use_interpolation, encoder_preset := p.encoder_preset
    encoder_quality := p.encoder_quality
    source_width := 0, source_height := 0, source_fps := 0 }

/-- ProcessingOptions.output_fps (src/core/video_engine.py lines 66-69):
Python truthiness, so a target of None or 0 falls back to source_fps. -/
def ProcessingOptions.output_fps (o : ProcessingOptions) : ℚ :=
  match o.target_fps with
  | some t => if t = 0 then o.source_fps else t
  | none => o.source_fps

/-- The observable outcome of VideoEngine.extract_frames: the returned
triple's frame count and frame rate, plus the rate used in the ffmpeg
fps filter of the extraction command (line 216). -/
structure ExtractOutcome : Type where
  frame_count : ℕ
  fps : ℚ
  filter_fps : ℚ
deriving DecidableEq

/-- VideoEngine.extract_frames (src/core/video_engine.py lines 174-238):
probes the source (source_fps), stores the source properties into the
options and resolves output_fps from them (lines 198-205), decodes with an
fps filter set to the source rate (line 216), and returns
(frame_count, output_fps, frames_dir).  The ffmpeg decode and the on-disk
file count are abstracted as decoded_frames. -/
def extract_frames (source_fps : ℚ) (decoded_frames : ℕ)
    (options : Option ProcessingOptions) : ExtractOutcome :=
  let output_fps : ℚ :=
    match options with
    | some o => ProcessingOptions.output_fps { o with source_fps := source_fps }
    | none => source_fps
  { frame_count := decoded_frames, fps := output_fps, filter_fps := source_fps }

/-- The ProcessingOptions built from the standard preset, as used by
VideoWorker._process (src/core/video_worker.py lines 99-104). -/
def standardOptions : ProcessingOptions :=
  ProcessingOptions.ofPreset (get_preset_config .standard)

/-- Failure modes of the enhance capability as distinguished by
UpscalerEngine.upscale_image (src/core/upscaler.py lines 139-147): a CUDA
out-of-memory RuntimeError versus any other error. -/
inductive UpscaleError : Type
  | oom
  | other
deriving DecidableEq

/-- UpscalerEngine._reduce_tile_size (src/core/upscaler.py lines 201-206):
when the tile size is above 64, halve it with a floor of 64; otherwise
leave it unchanged. -/
def reduce_tile_size (tile_size : ℕ) : ℕ :=
  if 64 < tile_size then max 64 (tile_size / 2) else tile_size

/-- UpscalerEngine.upscale_image (src/core/upscaler.py lines 114-153): try
the enhance capability at the current tile size; on an out-of-memory
failure, reduce the tile size once and retry; any other failure (or a
failure of the retry) propagates.  Returns the result together with the
tile size afterwards. -/
def upscale_image {α : Type} (enhance : ℕ → α → Except UpscaleError α)
    (tile : ℕ) (img : α) : Except UpscaleError α × ℕ :=
  match enhance tile img with
  | .ok out => (.ok out, tile)
  | .error .oom =>
      let tile2 := reduce_tile_size tile
      (enhance tile2 img, tile2)
  | .error e => (.error e, tile)

/-- The loop of UpscalerEngine.upscale_batch: returns (number of successes,
output frames written in order, final tile size).  A failed frame writes no
output and is simply skipped (lines 185-189). -/
def upscaleBatchGo {α : Type} (enhance : ℕ → α → Except UpscaleError α)
    (tile : ℕ) : List α → ℕ × List α × ℕ
  | [] => (0, [], tile)
  | img :: rest =>
      match upscale_image enhance tile img with
      | (.ok out, tile2) =>
          let r := upscaleBatchGo enhance tile2 rest
          (r.1 + 1, out :: r.2.1, r.2.2)
      | (.error _, tile2) => upscaleBatchGo enhance tile2 rest

/-- The observable outcome of UpscalerEngine.upscale_batch. -/
structure BatchResult (α : Type) : Type where
  success : ℕ
  total : ℕ
  outputs : List α
  tile : ℕ

/-- UpscalerEngine.upscale_batch (src/core/upscaler.py lines 155-199):
processes every frame of the input directory, counts successes, and returns
(success, total).  The loop has no cancellation input and never aborts on a
per-frame failure. -/
def upscale_batch {α : Type} (enhance : ℕ → α → Except UpscaleError α)
    (tile0 : ℕ) (frames : List α) : BatchResult α :=
  let r := upscaleBatchGo enhance tile0 frames
  { success := r.1, total := frames.length, outputs := r.2.1, tile := r.2.2 }

/-- Events acting on VideoWorker._is_running after construction
(src/core/video_worker.py): stop() (line 60) and _cleanup() (line 246) both
assign False; nothing else writes the flag, modelled by poll. -/
inductive WorkerEvent : Type
  | stopRequest
  | cleanup
  | poll
deriving DecidableEq

/-- The effect of one event on the _is_running flag. -/
def flagStep (b : Bool) : WorkerEvent → Bool
  | .stopRequest => false
  | .cleanup => false
  | .poll => b

/-- The _is_running flag after a sequence of events. -/
def flagRun (init : Bool) (evs : List WorkerEvent) : Bool :=
  evs.foldl flagStep init

/-- The stage-level outcome of one VideoWorker._process run. -/
structure RunTrace : Type where
  upscaled_total : ℕ
  upscaled_success : ℕ
  interpolated : Bool
  encoded : Bool
  completed : Bool
deriving DecidableEq

/-- VideoWorker._process (src/core/video_worker.py lines 76-213), with the
_is_running flag observed at its four read sites: before extraction
(line 93), before upscaling (line 115), in the interpolation condition
(line 147), and before encoding (line 190).  flagAt i gives the flag value
at the i-th read.  The upscale batch itself (upscale_batch) takes no
cancellation input, so once entered it processes every frame. -/
def workerProcess {α : Type} (enhance : ℕ → α → Except UpscaleError α)
    (tile0 : ℕ) (frames : List α) (enable_interpolate : Bool)
    (flagAt : ℕ → Bool) : RunTrace :=
  if flagAt 0 = false then ⟨0, 0, false, false, false⟩
  else if flagAt 1 = false then ⟨0, 0, false, false, false⟩
  else
    let r := upscale_batch enhance tile0 frames
    let didInterp := enable_interpolate && flagAt 2
    if flagAt 3 = false then ⟨r.total, r.success, didInterp, false, false⟩
    else ⟨r.total, r.success, didInterp, true, true⟩

/-- VideoWorker._on_upscale_progress (src/core/video_worker.py lines
215-220): overall progress 10 + int(current / total * 50), in exact
arithmetic. -/
def upscaleProgressValue (total current : ℕ) : ℕ :=
  10 + 50 * current / total

/-- VideoWorker._on_interpolate_progress (src/core/video_worker.py lines
222-227): overall progress 60 + int(current / total * 20), in exact
arithmetic. -/
def interpProgressValue (total current : ℕ) : ℕ :=
  60 + 20 * current / total

/-- The sequence of overall progress percentages emitted through the
progress signal on a VideoWorker._process run that reaches its end
(Completed): 10 after extraction (line 112), the upscale callbacks for
current = 1..up_total, 60 after upscaling (line 141), the interpolation
callbacks for current = 1..interp_done (interp_done = 0 when interpolation
is disabled or emits no callbacks, interp_done < interp_total when the
stage stops early), and 80 after the interpolation block (line 187).  No
further progress value is emitted before finished. -/
def emittedProgress (up_total interp_done interp_total : ℕ) : List ℕ :=
  [10]
    ++ (List.range up_total).map (fun c => upscaleProgressValue up_total (c + 1))
    ++ [60]
    ++ (List.range interp_done).map (fun c => interpProgressValue interp_total (c + 1))
    ++ [80]

/-!  Helper lemmas -/

/-- dict.get over an association list whose values all equal the default
returns the default for every key. -/
theorem dictGet_const {m : List (ℤ × ℚ)} {d : ℚ} (h : ∀ p ∈ m, p.2 = d) (k : ℤ) :
    dictGet m k d = d := by
  unfold dictGet
  cases hf : m.find? (fun p => p.1 == k) with
  | none => rfl
  | some p => exact h p (List.mem_of_find?_eq_some hf)

theorem reduce_tile_size_le (t : ℕ) : reduce_tile_size t ≤ t := by
  unfold reduce_tile_size
  split
  · exact max_le (le_of_lt (by assumption)) (Nat.div_le_self t 2)
  · exact le_refl t

theorem min_le_reduce_tile_size (t : ℕ) : min 64 t ≤ reduce_tile_size t := by
  unfold reduce_tile_size
  split
  · exact le_trans (min_le_left _ _) (le_max_left _ _)
  · exact min_le_right _ _

theorem rifeMergedFrames_length {α : Type} (interp : α → α → ℚ → α) (k : ℕ) :
    ∀ frames : List α, frames ≠ [] →
      (rifeMergedFrames interp k frames).length
        = frames.length + (frames.length - 1) * k := by
  intro frames
  induction frames with
  | nil => intro h; exact absurd rfl h
  | cons a rest ih =>
    intro _
    cases rest with
    | nil => simp [rifeMergedFrames]
    | cons b rest2 =>
      have hrec := ih (by simp)
      simp only [rifeMergedFrames, List.length_append, List.length_cons,
        List.length_map, List.length_range, Nat.add_sub_cancel] at hrec ⊢
      rw [hrec]
      ring

theorem dupFrames_length {α : Type} (d : ℕ) (frames : List α) :
    (dupFrames d frames).length = frames.length * (1 + d) := by
  induction frames with
  | nil => simp [dupFrames]
  | cons f rest ih =>
    simp only [dupFrames, List.length_cons, List.length_append,
      List.length_replicate, ih]
    ring

theorem upscaleBatchGo_spec {α : Type} (enhance : ℕ → α → Except UpscaleError α) :
    ∀ (frames : List α) (tile : ℕ),
      (upscaleBatchGo enhance tile frames).1 ≤ frames.length ∧
      (upscaleBatchGo enhance tile frames).2.1.length = (upscaleBatchGo enhance tile frames).1 := by
  intro frames
  induction frames with
  | nil => intro tile; simp [upscaleBatchGo]
  | cons img rest ih =>
    intro tile
    rcases hui : upscale_image enhance tile img with ⟨res, tile2⟩
    cases res with
    | ok out =>
      have := ih tile2
      simp only [upscaleBatchGo, hui, List.length_cons]
      omega
    | error e =>
      have := ih tile2
      simp only [upscaleBatchGo, hui, List.length_cons]
      omega

theorem flagStep_false (e : WorkerEvent) : flagStep false e = false := by
  cases e <;> rfl

/-!  Claim theorems -/

/-- C8: starting from any initial tile size, each resource-exhaustion
tile-size reduction is non-increasing, and the tile size never drops below
the floor of 64 (nor below its initial value when that is already under
the floor). -/
theorem C8_tile_reduction_monotone_floor (t n : ℕ) :
    reduce_tile_size^[n + 1] t ≤ reduce_tile_size^[n] t ∧
    min 64 t ≤ reduce_tile_size^[n] t := by
  constructor
  · rw [Function.iterate_succ_apply']
    exact reduce_tile_size_le _
  · induction n with
    | zero => exact min_le_right _ _
    | succ m ih =>
      rw [Function.iterate_succ_apply']
      exact le_trans (le_min (min_le_left _ _) ih) (min_le_reduce_tile_size _)

/-- C9: for positive rational source and target rates, the code's early
return of 0 when target/source is at most 1 together with int(ratio - 1)
computes exactly max(0, floor(target/source) - 1). -/
theorem C9_insert_count_formula (s t : ℚ) (_hs : 0 < s) (_ht : 0 < t) :
    (calculate_interpolation_frames s (some t)).1 = max 0 (⌊t / s⌋ - 1) := by
  unfold calculate_interpolation_frames
  dsimp only
  split_ifs with h
  · have hfloor : ⌊t / s⌋ ≤ 1 := by
      calc ⌊t / s⌋ ≤ ⌊(1 : ℚ)⌋ := Int.floor_le_floor h
      _ = 1 := Int.floor_one
    simp only
    rw [max_eq_left (by omega)]
  · have h1 : (1 : ℚ) < t / s := lt_of_not_le h
    have hfloor : 1 ≤ ⌊t / s⌋ := Int.le_floor.mpr (by exact_mod_cast h1.le)
    have htr : pytrunc (t / s - 1) = ⌊t / s - 1⌋ := by
      unfold pytrunc
      rw [if_pos (by linarith)]
    simp only [htr]
    rw [show (1 : ℚ) = ((1 : ℤ) : ℚ) by norm_num, Int.floor_sub_int]
    rw [max_eq_right (by omega)]

/-- Witness for C9 at the spec scenario 24 fps to 60 fps. -/
theorem C9_insert_count_formula_witness :
    (0 : ℚ) < 24 ∧ (0 : ℚ) < 60 ∧
      (calculate_interpolation_frames 24 (some 60)).1 = max 0 (⌊(60 : ℚ) / 24⌋ - 1) :=
  ⟨by norm_num, by norm_num, C9_insert_count_formula 24 60 (by norm_num) (by norm_num)⟩

/-- C10: on an empty input frame directory, both the model-backed path
(interpolate_video) and the simple fallback (_simple_interpolate) return
(0, source_fps) without failing. -/
theorem C10_empty_input_returns_zero {α : Type} (interp : α → α → ℚ → α)
    (source_fps target_fps : ℚ) (targ : Option ℚ) :
    interpolate_video interp source_fps targ ([] : List α) = (0, source_fps) ∧
    simple_interpolate source_fps target_fps ([] : List α) = (0, source_fps) := by
  constructor <;> rfl

/-- C3 (amended): the resource check reports compatible exactly when the
available VRAM is at least 0.8 times the preset requirement; below that it
reports failure. -/
theorem C3_vram_threshold_rule (a : ℚ) (level : PresetLevel) :
    (check_vram_compatibility a level).1 = true ↔
      (get_preset_config level).vram_required_gb * (0.8 : ℚ) ≤ a := by
  cases level <;>
    (unfold check_vram_compatibility get_preset_config PRESETS
     dsimp only
     split_ifs with h1 h2 <;> simp <;> linarith)

/-- C3 counterexample: with the high preset (6 GB required) and 4.5 GB
available, 4.5 is below 0.8 * 6 = 4.8, so the check reports outright
failure, not compatible-with-warning as the claim's scenario states. -/
theorem C3_scenario_counterexample :
    (get_preset_config .high).vram_required_gb = 6 ∧
    check_vram_compatibility (4.5 : ℚ) .high = (false, .insufficient) ∧
    ¬ ((6 : ℚ) * (0.8 : ℚ) ≤ (4.5 : ℚ)) := by
  refine ⟨rfl, ?_, by norm_num⟩
  unfold check_vram_compatibility get_preset_config PRESETS
  dsimp only
  rw [if_neg (by norm_num), if_neg (by norm_num)]

/-- C4 (amended): with no explicit target rate, every table entry maps to
60 and the dict.get default for unmapped rates is also 60, never a
pass-through; the source rate is returned unchanged only via the
ratio-at-most-1 early return, so the resolved target rate equals
max(source, 60).  InterpolatorEngine's own table resolution always
yields 60. -/
theorem C4_target_rate_resolution (s : ℚ) (hs : 0 < s) :
    (calculate_interpolation_frames s none).2 = max s 60 ∧
    interpolator_resolve_target s = 60 := by
  have hmap : dictGet TARGET_FPS_MAP (pytrunc s) 60 = 60 := by
    refine dictGet_const ?_ _
    intro p hp
    fin_cases hp <;> rfl
  have hmap2 : dictGet TARGET_FPS (pytrunc s) 60 = 60 := by
    refine dictGet_const ?_ _
    intro p hp
    fin_cases hp <;> rfl
  refine ⟨?_, hmap2⟩
  unfold calculate_interpolation_frames
  dsimp only
  rw [hmap]
  split_ifs with h
  · have h60 : (60 : ℚ) ≤ s := (div_le_one hs).mp h
    exact (max_eq_left h60).symm
  · have h60 : ¬ ((60 : ℚ) ≤ s) := fun hc => h ((div_le_one hs).mpr hc)
    exact (max_eq_right (le_of_not_le h60)).symm

/-- Witness for C4 at an unmapped source rate of 23 fps. -/
theorem C4_target_rate_resolution_witness :
    (0 : ℚ) < 23 ∧
      ((calculate_interpolation_frames 23 none).2 = max (23 : ℚ) 60 ∧
        interpolator_resolve_target (23 : ℚ) = 60) :=
  ⟨by norm_num, C4_target_rate_resolution 23 (by norm_num)⟩

/-- C4 counterexample: 23 fps is not in the lookup table, yet the resolved
target rate is the default 60, not the pass-through 23 the claim states. -/
theorem C4_passthrough_counterexample :
    TARGET_FPS_MAP.find? (fun p => p.1 == pytrunc (23 : ℚ)) = none ∧
    (calculate_interpolation_frames 23 none).2 = 60 ∧ (60 : ℚ) ≠ 23 := by
  refine ⟨rfl, ?_, by norm_num⟩
  unfold calculate_interpolation_frames
  dsimp only
  rw [dictGet_const (fun p hp => by fin_cases hp <;> rfl) _]
  rw [if_neg (by norm_num)]

/-- C1 (amended): the model-backed path interpolate_video returns
inputFrames + (inputFrames - 1) * insertCount output frames for any
non-empty input, while the simple fallback _simple_interpolate duplicates
every frame, the last included, and returns
inputFrames * (1 + insertCount) frames instead. -/
theorem C1_interpolation_output_count {α : Type} (interp : α → α → ℚ → α)
    (source_fps tfps : ℚ) (targ : Option ℚ) (frames : List α) (h : frames ≠ []) :
    (interpolate_video interp source_fps targ frames).1
        = frames.length + (frames.length - 1) *
            (calculate_interpolation_frames source_fps targ).1.toNat ∧
    (simple_interpolate source_fps tfps frames).1
        = frames.length * (1 + (pytrunc (tfps / source_fps) - 1).toNat) := by
  constructor
  · unfold interpolate_video
    rw [if_neg (by simp [h])]
    exact rifeMergedFrames_length interp _ frames h
  · unfold simple_interpolate
    rw [if_neg (by simp [h])]
    exact dupFrames_length _ frames

/-- Witness for C1 on three frames at 24 fps to 60 fps. -/
theorem C1_interpolation_output_count_witness :
    ([0, 1, 2] : List ℕ) ≠ [] ∧
      ((interpolate_video (fun a _ _ => a) 24 (some 60) [0, 1, 2]).1
          = ([0, 1, 2] : List ℕ).length + (([0, 1, 2] : List ℕ).length - 1) *
              (calculate_interpolation_frames 24 (some 60)).1.toNat ∧
        (simple_interpolate 24 60 [0, 1, 2]).1
          = ([0, 1, 2] : List ℕ).length * (1 + (pytrunc ((60 : ℚ) / 24) - 1).toNat)) :=
  ⟨by decide,
    C1_interpolation_output_count (fun a _ _ => a) 24 60 (some 60) [0, 1, 2] (by decide)⟩

/-- C1 counterexample: at 24 fps to 60 fps (insertCount 1), the simple
fallback turns 100 input frames into 200 output frames, not the
100 + 99 * 1 = 199 the claim requires of both paths. -/
theorem C1_simple_path_counterexample :
    simple_interpolate (24 : ℚ) 60 (List.replicate 100 (0 : ℕ)) = (200, 60) ∧
    (200 : ℕ) ≠ 100 + (100 - 1) * 1 := by
  constructor
  · unfold simple_interpolate
    rw [if_neg (by decide)]
    dsimp only
    rw [show pytrunc ((60 : ℚ) / 24) = 2 from by norm_num [pytrunc]]
    rw [dupFrames_length]
    rfl
  · decide

/-- C2 (amended): extract_frames always uses the probed source rate in the
extraction command's fps filter, but the frame-rate component of its
returned triple is the options-resolved output rate: the source rate only
when no options are supplied or the options carry no (nonzero) target fps,
and the target rate otherwise. -/
theorem C2_extract_returned_fps (s : ℚ) (n : ℕ) :
    (extract_frames s n none).fps = s ∧
    (∀ o : ProcessingOptions, (extract_frames s n (some o)).filter_fps = s) ∧
    (∀ o : ProcessingOptions, o.target_fps = none →
      (extract_frames s n (some o)).fps = s) ∧
    (∀ (o : ProcessingOptions) (t : ℚ), o.target_fps = some t → t ≠ 0 →
      (extract_frames s n (some o)).fps = t) := by
  refine ⟨rfl, fun o => rfl, ?_, ?_⟩
  · intro o ho
    simp [extract_frames, ProcessingOptions.output_fps, ho]
  · intro o t ho ht
    simp [extract_frames, ProcessingOptions.output_fps, ho, ht]

/-- Witness for C2: with the standard preset's options (target 60) on a
24 fps source, the returned rate is the target 60. -/
theorem C2_extract_returned_fps_witness :
    standardOptions.target_fps = some 60 ∧ (60 : ℚ) ≠ 0 ∧
      (extract_frames 24 100 (some standardOptions)).fps = 60 :=
  ⟨rfl, by norm_num,
    (C2_extract_returned_fps 24 100).2.2.2 standardOptions 60 rfl (by norm_num)⟩

/-- C2 counterexample: with the standard preset's options, a successfully
probed 24 fps source yields a returned frame rate of 60 — the target rate,
not the probed source rate the claim requires. -/
theorem C2_source_rate_counterexample :
    (extract_frames 24 100 (some standardOptions)).fps = 60 ∧ (60 : ℚ) ≠ 24 := by
  constructor
  · rfl
  · norm_num

/-- C6 (amended): the batch never aborts on a per-frame failure and always
returns (succeeded, total) with succeeded at most total and total the
input size, but a frame whose retries exhaust is skipped outright — its
output list entry is simply missing (outputs has exactly one entry per
succeeded frame) and no separate error counter exists. -/
theorem C6_batch_skips_failed_frames {α : Type} (enhance : ℕ → α → Except UpscaleError α)
    (tile0 : ℕ) (frames : List α) :
    (upscale_batch enhance tile0 frames).success ≤ (upscale_batch enhance tile0 frames).total ∧
    (upscale_batch enhance tile0 frames).total = frames.length ∧
    (upscale_batch enhance tile0 frames).outputs.length
      = (upscale_batch enhance tile0 frames).success := by
  have h := upscaleBatchGo_spec enhance frames tile0
  exact ⟨h.1, rfl, h.2⟩

/-- C6 counterexample: when the enhance capability always signals resource
exhaustion, the single failed frame is not copied through — the batch's
output list is empty rather than containing the original frame. -/
theorem C6_failed_frame_not_copied :
    (upscale_batch (fun _ _ => Except.error UpscaleError.oom) 512 [(7 : ℕ)]).outputs = [] ∧
    (upscale_batch (fun _ _ => Except.error UpscaleError.oom) 512 [(7 : ℕ)]).success = 0 ∧
    (upscale_batch (fun _ _ => Except.error UpscaleError.oom) 512 [(7 : ℕ)]).total = 1 :=
  ⟨rfl, rfl, rfl⟩

/-- C7 (amended): the cancellation flag, once signaled, is never
un-signaled for the task; it is checked before extraction, before
upscaling, in the interpolation condition and before encoding, but not
inside the per-frame loops — once the upscale stage has started, every
frame of the batch is processed regardless of the flag. -/
theorem C7_cancellation_flag (alpha : Type) (enhance : ℕ → alpha → Except UpscaleError alpha)
    (tile0 : ℕ) (frames : List alpha) (enable_interpolate : Bool) (flagAt : ℕ → Bool) :
    (∀ evs : List WorkerEvent, flagRun false evs = false) ∧
    (workerProcess enhance tile0 frames enable_interpolate flagAt).upscaled_total
      = (if flagAt 0 && flagAt 1 then frames.length else 0) := by
  constructor
  · intro evs
    induction evs with
    | nil => rfl
    | cons e t ih =>
      unfold flagRun at ih ⊢
      rw [List.foldl_cons, flagStep_false]
      exact ih
  · unfold workerProcess
    cases h0 : flagAt 0 <;> cases h1 : flagAt 1 <;> simp [h0, h1]
    cases h3 : flagAt 3 <;> simp [h3, upscale_batch]

/-- C7 counterexample: the flag pattern models stop() arriving while the
upscale stage runs (still set at the checks before extraction and
upscaling, cleared by the interpolation-condition check): all five frames
of the batch are still processed, not at most the one in flight. -/
theorem C7_mid_stage_counterexample :
    (fun k => decide (k < 2)) 1 = true ∧ (fun k => decide (k < 2)) 2 = false ∧
    (workerProcess (fun _ (img : ℕ) => Except.ok img) 512 [1, 2, 3, 4, 5] true
        (fun k => decide (k < 2))).upscaled_total = 5 ∧
    ¬ (5 ≤ 1) :=
  ⟨rfl, rfl, rfl, by decide⟩

/-!  Progress-sequence helpers for C5 -/

theorem chain_le_append_bounded {l1 l2 : List ℕ} {m : ℕ}
    (h1 : List.Chain' (· ≤ ·) l1) (h2 : List.Chain' (· ≤ ·) l2)
    (hb : ∀ x ∈ l1, x ≤ m) (hm : ∀ y ∈ l2, m ≤ y) :
    List.Chain' (· ≤ ·) (l1 ++ l2) := by
  refine List.Chain'.append h1 h2 ?_
  intro x hx y hy
  have hx2 : x ∈ l1 := by
    rcases List.mem_getLast?_eq_getLast hx with ⟨hne, rfl⟩
    exact List.getLast_mem hne
  have hy2 : y ∈ l2 := by
    cases l2 with
    | nil => simp at hy
    | cons b tl =>
      have hb2 : b = y := by simpa using hy
      simp [← hb2]
  exact le_trans (hb x hx2) (hm y hy2)

theorem chain_le_map_range (f : ℕ → ℕ) (hf : ∀ k, f k ≤ f (k + 1)) (n : ℕ) :
    List.Chain' (· ≤ ·) ((List.range n).map f) := by
  rw [List.chain'_map]
  cases n with
  | zero => simp
  | succ m => exact (List.chain'_range_succ _ m).mpr (fun k _ => hf k)

theorem stage_progress_le (base m u c : ℕ) (h : c ≤ u) : base + m * c / u ≤ base + m := by
  rcases Nat.eq_zero_or_pos u with hu | hu
  · subst hu
    simp [Nat.div_zero]
  · have h2 : m * c / u ≤ m * u / u :=
      Nat.div_le_div_right (Nat.mul_le_mul (Nat.le_refl m) h)
    have h3 : m * u / u = m := Nat.mul_div_cancel m hu
    omega

theorem stage_progress_mono (base m u c : ℕ) :
    base + m * c / u ≤ base + m * (c + 1) / u := by
  have h2 : m * c / u ≤ m * (c + 1) / u :=
    Nat.div_le_div_right (Nat.mul_le_mul (Nat.le_refl m) (Nat.le_succ c))
  omega

/-- C5 (amended): over one task the reported overall progress sequence is
non-decreasing, but the final value reported on a run that completes is 80,
not 100 — the worker never emits a progress value of 100. -/
theorem C5_progress_monotone_final_eighty (u d t : ℕ) (hdt : d ≤ t) :
    List.Chain' (· ≤ ·) (emittedProgress u d t) ∧
    (emittedProgress u d t).getLast? = some 80 := by
  have hA_chain :
      List.Chain' (· ≤ ·) ((List.range u).map fun c => upscaleProgressValue u (c + 1)) := by
    refine chain_le_map_range _ (fun k => ?_) _
    unfold upscaleProgressValue
    exact stage_progress_mono 10 50 u (k + 1)
  have hB_chain :
      List.Chain' (· ≤ ·) ((List.range d).map fun c => interpProgressValue t (c + 1)) := by
    refine chain_le_map_range _ (fun k => ?_) _
    unfold interpProgressValue
    exact stage_progress_mono 60 20 t (k + 1)
  have hA_lb : ∀ x ∈ (List.range u).map fun c => upscaleProgressValue u (c + 1), 10 ≤ x := by
    intro x hx
    rcases List.mem_map.mp hx with ⟨c, _, rfl⟩
    exact Nat.le_add_right 10 _
  have hA_ub : ∀ x ∈ (List.range u).map fun c => upscaleProgressValue u (c + 1), x ≤ 60 := by
    intro x hx
    rcases List.mem_map.mp hx with ⟨c, hc, rfl⟩
    have hcu : c < u := List.mem_range.mp hc
    have := stage_progress_le 10 50 u (c + 1) hcu
    unfold upscaleProgressValue
    omega
  have hB_lb : ∀ x ∈ (List.range d).map fun c => interpProgressValue t (c + 1), 60 ≤ x := by
    intro x hx
    rcases List.mem_map.mp hx with ⟨c, _, rfl⟩
    exact Nat.le_add_right 60 _
  have hB_ub : ∀ x ∈ (List.range d).map fun c => interpProgressValue t (c + 1), x ≤ 80 := by
    intro x hx
    rcases List.mem_map.mp hx with ⟨c, hc, rfl⟩
    have hcd : c < d := List.mem_range.mp hc
    have hct : c + 1 ≤ t := le_trans hcd hdt
    have := stage_progress_le 60 20 t (c + 1) hct
    unfold interpProgressValue
    omega
  constructor
  · unfold emittedProgress
    refine chain_le_append_bounded (m := 80) ?_ ?_ ?_ ?_
    · refine chain_le_append_bounded (m := 60) ?_ hB_chain ?_ hB_lb
      · refine chain_le_append_bounded (m := 60) ?_ (by simp) ?_ ?_
        · refine chain_le_append_bounded (m := 10) (by simp) hA_chain ?_ hA_lb
          intro x hx
          simp only [List.mem_singleton] at hx
          omega
        · intro x hx
          rcases List.mem_append.mp hx with hx | hx
          · simp only [List.mem_singleton] at hx
            omega
          · exact le_trans (hA_ub x hx) (by omega)
        · intro y hy
          simp only [List.mem_singleton] at hy
          omega
      · intro x hx
        rcases List.mem_append.mp hx with hx | hx
        · rcases List.mem_append.mp hx with hx | hx
          · simp only [List.mem_singleton] at hx
            omega
          · exact hA_ub x hx
        · simp only [List.mem_singleton] at hx
          omega
    · simp
    · intro x hx
      rcases List.mem_append.mp hx with hx | hx
      · rcases List.mem_append.mp hx with hx | hx
        · rcases List.mem_append.mp hx with hx | hx
          · simp only [List.mem_singleton] at hx
            omega
          · exact le_trans (hA_ub x hx) (by omega)
        · simp only [List.mem_singleton] at hx
          omega
      · exact hB_ub x hx
    · intro y hy
      simp only [List.mem_singleton] at hy
      omega
  · unfold emittedProgress
    rw [List.getLast?_append_cons]
    rfl

/-- Witness for C5 on a completed run with two upscaled frames and a
two-frame interpolation stage. -/
theorem C5_progress_witness :
    2 ≤ 2 ∧
      (List.Chain' (· ≤ ·) (emittedProgress 2 2 2) ∧
        (emittedProgress 2 2 2).getLast? = some 80) :=
  ⟨le_refl 2, C5_progress_monotone_final_eighty 2 2 2 (le_refl 2)⟩

/-- C5 counterexample: on a completed run the final reported progress is 80
and the value 100 is never reported, refuting "reaches exactly 100 on
Completed". -/
theorem C5_never_reaches_hundred :
    (emittedProgress 2 2 2).getLast? = some 80 ∧ (100 : ℕ) ∉ emittedProgress 2 2 2 := by
  constructor
  · rfl
  · decide
